import Mathlib

/-!
Verification of the Book_Swap backend (azle/express CRUD server).

The embedding models the runtime behavior of `src/index.ts` (current source,
generic presence validation via `validateRequestBody`) and the per-route
typed-check variant of the same server found in the repository (handlers
that test `!field || typeof field !== "..."` inline).

JSON request bodies are dynamic, so bodies are association lists of
`JsonValue`s; entity domain fields store the raw submitted `JsonValue`
verbatim, as the JS classes do.  Ids and timestamps come from the opaque
generator/clock, modelled as explicit arguments to each handler.
-/

/-- A runtime JSON value as relevant to the validation code: JS `null`,
strings, numbers, booleans.  Numbers are modelled as integers (the claims
only distinguish number-vs-string and zero-vs-nonzero). -/
inductive JsonValue where
  | null : JsonValue
  | str : String → JsonValue
  | num : Int → JsonValue
  | bool : Bool → JsonValue
deriving DecidableEq, Repr

/-- A parsed JSON request body: field name to value.  A field absent from
the list is JS `undefined`. -/
abbrev Body : Type := List (String × JsonValue)

/-- `body[field]` : JS property access, `none` = `undefined`. -/
def lookupField : Body → String → Option JsonValue
  | [], _ => none
  | (k, v) :: rest, f => if k = f then some v else lookupField rest f

/-- `body[field] !== undefined && body[field] !== null` (index.ts line 109). -/
def presentField : Option JsonValue → Bool
  | none => false
  | some JsonValue.null => false
  | some _ => true

/-- index.ts `validateRequestBody`: every required field present and
non-null/non-undefined. -/
def validateRequestBody (body : Body) (requiredFields : List String) : Bool :=
  requiredFields.all (fun field => presentField (lookupField body field))

/-- JS truthiness of `body[field]` : `undefined`, `null`, `""`, `0` and
`false` are falsy. -/
def truthy : Option JsonValue → Bool
  | none => false
  | some JsonValue.null => false
  | some (JsonValue.str s) => !s.isEmpty
  | some (JsonValue.num n) => n != 0
  | some (JsonValue.bool b) => b

/-- `typeof body[field] === "string"`. -/
def isString : Option JsonValue → Bool
  | some (JsonValue.str _) => true
  | _ => false

/-- `typeof body[field] === "number"`. -/
def isNumber : Option JsonValue → Bool
  | some (JsonValue.num _) => true
  | _ => false

/-- Negation of one disjunct pair `!x || typeof x !== "string"` of the
typed-variant route guards. -/
def stringFieldOk (v : Option JsonValue) : Bool := truthy v && isString v

/-- Negation of `!x || typeof x !== "number"` for the rating field. -/
def numberFieldOk (v : Option JsonValue) : Bool := truthy v && isNumber v

/-- Raw runtime value of a destructured body field.  Handlers only build
entities after validation passed, so the field is some non-null value and
the `null` default is never observed. -/
def rawField (body : Body) (f : String) : JsonValue :=
  (lookupField body f).getD JsonValue.null

/-- `class User` : domain fields hold the raw submitted values. -/
structure User where
  id : String
  name : JsonValue
  email : JsonValue
  createdAt : Nat
deriving DecidableEq, Repr

/-- `new User(name, email)` with the uuid and clock made explicit. -/
def User.make (freshId : String) (now : Nat) (name email : JsonValue) : User :=
  { id := freshId, name := name, email := email, createdAt := now }

/-- `class Book`. -/
structure Book where
  id : String
  userId : JsonValue
  title : JsonValue
  author : JsonValue
  description : JsonValue
  createdAt : Nat
deriving DecidableEq, Repr

/-- `new Book(userId, title, author, description)`. -/
def Book.make (freshId : String) (now : Nat)
    (userId title author description : JsonValue) : Book :=
  { id := freshId, userId := userId, title := title, author := author,
    description := description, createdAt := now }

/-- `class SwapRequest`. -/
structure SwapRequest where
  id : String
  bookId : JsonValue
  requestedById : JsonValue
  status : JsonValue
  createdAt : Nat
deriving DecidableEq, Repr

/-- `new SwapRequest(bookId, requestedById, status)`. -/
def SwapRequest.make (freshId : String) (now : Nat)
    (bookId requestedById status : JsonValue) : SwapRequest :=
  { id := freshId, bookId := bookId, requestedById := requestedById,
    status := status, createdAt := now }

/-- `class Feedback` : `rating` holds the raw submitted value, as the JS
runtime does regardless of the declared TypeScript type. -/
structure Feedback where
  id : String
  userId : JsonValue
  swapRequestId : JsonValue
  rating : JsonValue
  comment : JsonValue
  createdAt : Nat
deriving DecidableEq, Repr

/-- `new Feedback(userId, swapRequestId, rating, comment)`. -/
def Feedback.make (freshId : String) (now : Nat)
    (userId swapRequestId rating comment : JsonValue) : Feedback :=
  { id := freshId, userId := userId, swapRequestId := swapRequestId,
    rating := rating, comment := comment, createdAt := now }

/-- `StableBTreeMap.insert` on the ordered table: insert keeping ascending
key order, silently overwriting an equal key. -/
def tableInsert {α : Type} (k : String) (v : α) :
    List (String × α) → List (String × α)
  | [] => [(k, v)]
  | (k0, v0) :: rest =>
    if k < k0 then (k, v) :: (k0, v0) :: rest
    else if k = k0 then (k, v) :: rest
    else (k0, v0) :: tableInsert k v rest

/-- `StableBTreeMap.values`: all stored entities in table order. -/
def tableValues {α : Type} (t : List (String × α)) : List α :=
  t.map Prod.snd

/-- `StableBTreeMap.get` by key. -/
def tableLookup {α : Type} (k : String) : List (String × α) → Option α
  | [] => none
  | (k0, v0) :: rest => if k0 = k then some v0 else tableLookup k rest

/-- The keys of a table. -/
def tableKeys {α : Type} (t : List (String × α)) : List String :=
  t.map Prod.fst

/-- The four stable maps (`usersStorage` … `feedbackStorage`). -/
structure AppState where
  usersStorage : List (String × User)
  booksStorage : List (String × Book)
  swapRequestsStorage : List (String × SwapRequest)
  feedbackStorage : List (String × Feedback)
deriving DecidableEq, Repr

/-- All four tables empty, the state at deployment. -/
def emptyState : AppState :=
  { usersStorage := [], booksStorage := [], swapRequestsStorage := [],
    feedbackStorage := [] }

/-- Response of a create endpoint: status plus the `{error}` or
`{message, <entity>}` envelope fields. -/
structure CreateResponse (α : Type) where
  status : Nat
  error : Option String
  message : Option String
  payload : Option α
deriving DecidableEq, Repr

/-- Response of a list endpoint: `{message, <entities>}`. -/
structure ListResponse (α : Type) where
  status : Nat
  message : String
  items : List α
deriving DecidableEq, Repr

def userRequiredFields : List String := ["name", "email"]

def bookRequiredFields : List String :=
  ["userId", "title", "author", "description"]

def swapRequestRequiredFields : List String :=
  ["bookId", "requestedById", "status"]

def feedbackRequiredFields : List String :=
  ["userId", "swapRequestId", "rating", "comment"]

def userValidationError : String :=
  "Invalid input: Ensure \x27name\x27 and \x27email\x27 are provided and are strings."

def bookValidationError : String :=
  "Invalid input: Ensure \x27userId\x27, \x27title\x27, \x27author\x27, and \x27description\x27 are provided and are of the correct types."

def swapRequestValidationError : String :=
  "Invalid input: Ensure \x27bookId\x27, \x27requestedById\x27, and \x27status\x27 are provided and are of the correct types."

def feedbackValidationError : String :=
  "Invalid input: Ensure \x27userId\x27, \x27swapRequestId\x27, \x27rating\x27, and \x27comment\x27 are provided and are of the correct types."

/-- The entity built by the /users create handler from a request. -/
def userOfRequest (freshId : String) (now : Nat) (body : Body) : User :=
  User.make freshId now (rawField body "name") (rawField body "email")

/-- The entity built by the /books create handler from a request. -/
def bookOfRequest (freshId : String) (now : Nat) (body : Body) : Book :=
  Book.make freshId now (rawField body "userId") (rawField body "title")
    (rawField body "author") (rawField body "description")

/-- The entity built by the /swapRequests create handler from a request. -/
def swapRequestOfRequest (freshId : String) (now : Nat) (body : Body) :
    SwapRequest :=
  SwapRequest.make freshId now (rawField body "bookId")
    (rawField body "requestedById") (rawField body "status")

/-- The entity built by the /feedback create handler from a request. -/
def feedbackOfRequest (freshId : String) (now : Nat) (body : Body) : Feedback :=
  Feedback.make freshId now (rawField body "userId")
    (rawField body "swapRequestId") (rawField body "rating")
    (rawField body "comment")

/-- index.ts `app.post("/users")`. -/
def postUsers (freshId : String) (now : Nat) (body : Body) (s : AppState) :
    CreateResponse User × AppState :=
  if validateRequestBody body userRequiredFields then
    let user := userOfRequest freshId now body
    ({ status := 201, error := none,
       message := some "User created successfully", payload := some user },
     { s with usersStorage := tableInsert user.id user s.usersStorage })
  else
    ({ status := 400, error := some userValidationError,
       message := none, payload := none }, s)

/-- index.ts `app.post("/books")`. -/
def postBooks (freshId : String) (now : Nat) (body : Body) (s : AppState) :
    CreateResponse Book × AppState :=
  if validateRequestBody body bookRequiredFields then
    let book := bookOfRequest freshId now body
    ({ status := 201, error := none,
       message := some "Book created successfully", payload := some book },
     { s with booksStorage := tableInsert book.id book s.booksStorage })
  else
    ({ status := 400, error := some bookValidationError,
       message := none, payload := none }, s)

/-- index.ts `app.post("/swapRequests")`. -/
def postSwapRequests (freshId : String) (now : Nat) (body : Body)
    (s : AppState) : CreateResponse SwapRequest × AppState :=
  if validateRequestBody body swapRequestRequiredFields then
    let swapRequest := swapRequestOfRequest freshId now body
    ({ status := 201, error := none,
       message := some "Swap request created successfully",
       payload := some swapRequest },
     { s with swapRequestsStorage :=
        tableInsert swapRequest.id swapRequest s.swapRequestsStorage })
  else
    ({ status := 400, error := some swapRequestValidationError,
       message := none, payload := none }, s)

/-- index.ts `app.post("/feedback")`. -/
def postFeedback (freshId : String) (now : Nat) (body : Body) (s : AppState) :
    CreateResponse Feedback × AppState :=
  if validateRequestBody body feedbackRequiredFields then
    let feedback := feedbackOfRequest freshId now body
    ({ status := 201, error := none,
       message := some "Feedback created successfully",
       payload := some feedback },
     { s with feedbackStorage :=
        tableInsert feedback.id feedback s.feedbackStorage })
  else
    ({ status := 400, error := some feedbackValidationError,
       message := none, payload := none }, s)

/-- `app.get("/users")`. -/
def getUsers (s : AppState) : ListResponse User × AppState :=
  ({ status := 200, message := "Users retrieved successfully",
     items := tableValues s.usersStorage }, s)

/-- `app.get("/books")`. -/
def getBooks (s : AppState) : ListResponse Book × AppState :=
  ({ status := 200, message := "Books retrieved successfully",
     items := tableValues s.booksStorage }, s)

/-- `app.get("/swapRequests")`. -/
def getSwapRequests (s : AppState) : ListResponse SwapRequest × AppState :=
  ({ status := 200, message := "Swap requests retrieved successfully",
     items := tableValues s.swapRequestsStorage }, s)

/-- `app.get("/feedback")`. -/
def getFeedback (s : AppState) : ListResponse Feedback × AppState :=
  ({ status := 200, message := "Feedback retrieved successfully",
     items := tableValues s.feedbackStorage }, s)

/-- Typed-variant guard for /users: body passes when every required string
field is truthy and a string. -/
def validUserBody (body : Body) : Bool :=
  stringFieldOk (lookupField body "name") &&
  stringFieldOk (lookupField body "email")

/-- Typed-variant guard for /books. -/
def validBookBody (body : Body) : Bool :=
  stringFieldOk (lookupField body "userId") &&
  stringFieldOk (lookupField body "title") &&
  stringFieldOk (lookupField body "author") &&
  stringFieldOk (lookupField body "description")

/-- Typed-variant guard for /swapRequests. -/
def validSwapRequestBody (body : Body) : Bool :=
  stringFieldOk (lookupField body "bookId") &&
  stringFieldOk (lookupField body "requestedById") &&
  stringFieldOk (lookupField body "status")

/-- Typed-variant guard for /feedback: `rating` must be a truthy number. -/
def validFeedbackBody (body : Body) : Bool :=
  stringFieldOk (lookupField body "userId") &&
  stringFieldOk (lookupField body "swapRequestId") &&
  numberFieldOk (lookupField body "rating") &&
  stringFieldOk (lookupField body "comment")

/-- Typed-variant `app.post("/users")`. -/
def postUsersTyped (freshId : String) (now : Nat) (body : Body)
    (s : AppState) : CreateResponse User × AppState :=
  if validUserBody body then
    let user := userOfRequest freshId now body
    ({ status := 201, error := none,
       message := some "User created successfully", payload := some user },
     { s with usersStorage := tableInsert user.id user s.usersStorage })
  else
    ({ status := 400, error := some userValidationError,
       message := none, payload := none }, s)

/-- Typed-variant `app.post("/books")`. -/
def postBooksTyped (freshId : String) (now : Nat) (body : Body)
    (s : AppState) : CreateResponse Book × AppState :=
  if validBookBody body then
    let book := bookOfRequest freshId now body
    ({ status := 201, error := none,
       message := some "Book created successfully", payload := some book },
     { s with booksStorage := tableInsert book.id book s.booksStorage })
  else
    ({ status := 400, error := some bookValidationError,
       message := none, payload := none }, s)

/-- Typed-variant `app.post("/swapRequests")`. -/
def postSwapRequestsTyped (freshId : String) (now : Nat) (body : Body)
    (s : AppState) : CreateResponse SwapRequest × AppState :=
  if validSwapRequestBody body then
    let swapRequest := swapRequestOfRequest freshId now body
    ({ status := 201, error := none,
       message := some "Swap request created successfully",
       payload := some swapRequest },
     { s with swapRequestsStorage :=
        tableInsert swapRequest.id swapRequest s.swapRequestsStorage })
  else
    ({ status := 400, error := some swapRequestValidationError,
       message := none, payload := none }, s)

/-- Typed-variant `app.post("/feedback")`. -/
def postFeedbackTyped (freshId : String) (now : Nat) (body : Body)
    (s : AppState) : CreateResponse Feedback × AppState :=
  if validFeedbackBody body then
    let feedback := feedbackOfRequest freshId now body
    ({ status := 201, error := none,
       message := some "Feedback created successfully",
       payload := some feedback },
     { s with feedbackStorage :=
        tableInsert feedback.id feedback s.feedbackStorage })
  else
    ({ status := 400, error := some feedbackValidationError,
       message := none, payload := none }, s)

/-- `startsWithChars sub hay` : `hay` starts with `sub`. -/
def startsWithChars : List Char → List Char → Bool
  | [], _ => true
  | _ :: _, [] => false
  | c :: cs, d :: ds => c == d && startsWithChars cs ds

/-- One character list occurs inside another. -/
def containsChars (hay sub : List Char) : Bool :=
  match hay with
  | [] => sub.isEmpty
  | _ :: rest => startsWithChars sub hay || containsChars rest sub

/-- An error message names a field when the field name occurs in it as a
substring. -/
def mentionsField (msg field : String) : Bool :=
  containsChars msg.data field.data

@[simp] theorem tableKeys_nil {α : Type} :
    tableKeys ([] : List (String × α)) = [] := rfl

@[simp] theorem tableKeys_cons {α : Type} (k : String) (v : α)
    (t : List (String × α)) : tableKeys ((k, v) :: t) = k :: tableKeys t := rfl

@[simp] theorem tableValues_nil {α : Type} :
    tableValues ([] : List (String × α)) = [] := rfl

@[simp] theorem tableValues_cons {α : Type} (k : String) (v : α)
    (t : List (String × α)) :
    tableValues ((k, v) :: t) = v :: tableValues t := rfl

theorem mem_tableInsert {α : Type} (e : String × α) (k : String) (v : α)
    (t : List (String × α)) (h : e ∈ tableInsert k v t) :
    e = (k, v) ∨ e ∈ t := by
  induction t with
  | nil => simpa [tableInsert] using h
  | cons hd rest ih =>
    obtain ⟨k0, v0⟩ := hd
    simp only [tableInsert] at h
    by_cases h1 : k < k0
    · rw [if_pos h1] at h
      rcases List.mem_cons.mp h with h | h
      · exact Or.inl h
      · exact Or.inr h
    · rw [if_neg h1] at h
      by_cases h2 : k = k0
      · rw [if_pos h2] at h
        rcases List.mem_cons.mp h with h | h
        · exact Or.inl h
        · exact Or.inr (List.mem_cons_of_mem _ h)
      · rw [if_neg h2] at h
        rcases List.mem_cons.mp h with h | h
        · exact Or.inr (h ▸ List.mem_cons_self _ _)
        · rcases ih h with h | h
          · exact Or.inl h
          · exact Or.inr (List.mem_cons_of_mem _ h)

theorem mem_tableKeys_tableInsert {α : Type} (x k : String) (v : α)
    (t : List (String × α)) (h : x ∈ tableKeys (tableInsert k v t)) :
    x = k ∨ x ∈ tableKeys t := by
  obtain ⟨e, he, hx⟩ := List.mem_map.mp h
  rcases mem_tableInsert e k v t he with h1 | h1
  · left; rw [← hx, h1]
  · right; exact List.mem_map.mpr ⟨e, h1, hx⟩

theorem tableInsert_perm {α : Type} (k : String) (v : α)
    (t : List (String × α)) (hk : k ∉ tableKeys t) :
    (tableInsert k v t).Perm ((k, v) :: t) := by
  induction t with
  | nil => simp [tableInsert]
  | cons hd rest ih =>
    obtain ⟨k0, v0⟩ := hd
    rw [tableKeys_cons, List.mem_cons] at hk
    push_neg at hk
    simp only [tableInsert]
    by_cases h1 : k < k0
    · rw [if_pos h1]
    · rw [if_neg h1, if_neg hk.1]
      exact ((ih hk.2).cons (k0, v0)).trans (List.Perm.swap (k, v) (k0, v0) rest)

theorem sorted_tableInsert {α : Type} (k : String) (v : α)
    (t : List (String × α))
    (hs : List.Sorted (· < ·) (tableKeys t)) :
    List.Sorted (· < ·) (tableKeys (tableInsert k v t)) := by
  induction t with
  | nil => simp [tableInsert]
  | cons hd rest ih =>
    obtain ⟨k0, v0⟩ := hd
    rw [tableKeys_cons, List.sorted_cons] at hs
    obtain ⟨hk0, hrest⟩ := hs
    simp only [tableInsert]
    by_cases h1 : k < k0
    · rw [if_pos h1, tableKeys_cons, tableKeys_cons]
      refine List.sorted_cons.mpr ⟨?_, List.sorted_cons.mpr ⟨hk0, hrest⟩⟩
      intro b hb
      rcases List.mem_cons.mp hb with hb | hb
      · exact hb ▸ h1
      · exact h1.trans (hk0 b hb)
    · rw [if_neg h1]
      by_cases h2 : k = k0
      · rw [if_pos h2, tableKeys_cons]
        exact List.sorted_cons.mpr ⟨fun b hb => h2 ▸ hk0 b hb, hrest⟩
      · rw [if_neg h2, tableKeys_cons]
        refine List.sorted_cons.mpr ⟨?_, ih hrest⟩
        intro b hb
        rcases mem_tableKeys_tableInsert b k v rest hb with hb | hb
        · exact hb ▸ (lt_of_le_of_ne (not_lt.mp h1) (Ne.symm h2))
        · exact hk0 b hb

theorem length_tableInsert_fresh {α : Type} (k : String) (v : α)
    (t : List (String × α)) (hk : k ∉ tableKeys t) :
    (tableInsert k v t).length = t.length + 1 := by
  rw [(tableInsert_perm k v t hk).length_eq]
  rfl

theorem tableLookup_tableInsert_self {α : Type} (k : String) (v : α)
    (t : List (String × α)) :
    tableLookup k (tableInsert k v t) = some v := by
  induction t with
  | nil => simp [tableInsert, tableLookup]
  | cons hd rest ih =>
    obtain ⟨k0, v0⟩ := hd
    simp only [tableInsert]
    by_cases h1 : k < k0
    · simp [h1, tableLookup]
    · by_cases h2 : k = k0
      · simp [h1, h2, tableLookup]
      · simp [h1, h2, tableLookup, Ne.symm h2, ih]

theorem tableLookup_tableInsert_ne {α : Type} (k j : String) (v : α)
    (t : List (String × α)) (hne : k ≠ j) :
    tableLookup j (tableInsert k v t) = tableLookup j t := by
  induction t with
  | nil => simp [tableInsert, tableLookup, hne]
  | cons hd rest ih =>
    obtain ⟨k0, v0⟩ := hd
    simp only [tableInsert]
    by_cases h1 : k < k0
    · rw [if_pos h1]
      simp [tableLookup, hne]
    · rw [if_neg h1]
      by_cases h2 : k = k0
      · rw [if_pos h2]
        subst h2
        simp [tableLookup, hne]
      · rw [if_neg h2]
        simp only [tableLookup]
        by_cases h3 : k0 = j
        · rw [if_pos h3, if_pos h3]
        · rw [if_neg h3, if_neg h3]
          exact ih

/-- Folding single-key inserts over a table, the shape every sequence of
successful create requests takes on its entity table. -/
def foldIns {α : Type} (entries : List (String × α))
    (t : List (String × α)) : List (String × α) :=
  entries.foldl (fun acc e => tableInsert e.fst e.snd acc) t

@[simp] theorem foldIns_nil {α : Type} (t : List (String × α)) :
    foldIns [] t = t := rfl

@[simp] theorem foldIns_cons {α : Type} (k : String) (v : α)
    (rest : List (String × α)) (t : List (String × α)) :
    foldIns ((k, v) :: rest) t = foldIns rest (tableInsert k v t) := rfl

theorem foldIns_perm {α : Type} (entries : List (String × α)) :
    ∀ (t : List (String × α)), (entries.map Prod.fst).Nodup →
    (∀ x ∈ entries.map Prod.fst, x ∉ tableKeys t) →
    (foldIns entries t).Perm (entries ++ t) := by
  induction entries with
  | nil => intro t _ _; simp
  | cons e rest ih =>
    intro t hnd hdisj
    obtain ⟨k, v⟩ := e
    simp only [List.map_cons, List.nodup_cons] at hnd
    have hk : k ∉ tableKeys t := hdisj k (by simp)
    have hdisj2 : ∀ x ∈ rest.map Prod.fst, x ∉ tableKeys (tableInsert k v t) := by
      intro x hx hmem
      rcases mem_tableKeys_tableInsert x k v t hmem with h | h
      · exact hnd.1 (h ▸ hx)
      · exact hdisj x (List.mem_cons_of_mem _ hx) h
    have step := ih (tableInsert k v t) hnd.2 hdisj2
    rw [foldIns_cons]
    refine step.trans ?_
    refine (List.Perm.append_left rest (tableInsert_perm k v t hk)).trans ?_
    exact List.perm_middle

theorem foldIns_sorted {α : Type} (entries : List (String × α)) :
    ∀ (t : List (String × α)), List.Sorted (· < ·) (tableKeys t) →
    List.Sorted (· < ·) (tableKeys (foldIns entries t)) := by
  induction entries with
  | nil => intro t hs; exact hs
  | cons e rest ih =>
    intro t hs
    obtain ⟨k, v⟩ := e
    rw [foldIns_cons]
    exact ih (tableInsert k v t) (sorted_tableInsert k v t hs)

theorem postUsers_valid (i : String) (t : Nat) (b : Body) (s : AppState)
    (h : validateRequestBody b userRequiredFields = true) :
    postUsers i t b s =
      ({ status := 201, error := none,
         message := some "User created successfully",
         payload := some (userOfRequest i t b) },
       { s with usersStorage :=
          tableInsert i (userOfRequest i t b) s.usersStorage }) := by
  simp [postUsers, h, userOfRequest, User.make]

theorem postUsers_invalid (i : String) (t : Nat) (b : Body) (s : AppState)
    (h : validateRequestBody b userRequiredFields = false) :
    postUsers i t b s =
      ({ status := 400, error := some userValidationError,
         message := none, payload := none }, s) := by
  simp [postUsers, h]

theorem postBooks_valid (i : String) (t : Nat) (b : Body) (s : AppState)
    (h : validateRequestBody b bookRequiredFields = true) :
    postBooks i t b s =
      ({ status := 201, error := none,
         message := some "Book created successfully",
         payload := some (bookOfRequest i t b) },
       { s with booksStorage :=
          tableInsert i (bookOfRequest i t b) s.booksStorage }) := by
  simp [postBooks, h, bookOfRequest, Book.make]

theorem postBooks_invalid (i : String) (t : Nat) (b : Body) (s : AppState)
    (h : validateRequestBody b bookRequiredFields = false) :
    postBooks i t b s =
      ({ status := 400, error := some bookValidationError,
         message := none, payload := none }, s) := by
  simp [postBooks, h]

theorem postSwapRequests_valid (i : String) (t : Nat) (b : Body)
    (s : AppState)
    (h : validateRequestBody b swapRequestRequiredFields = true) :
    postSwapRequests i t b s =
      ({ status := 201, error := none,
         message := some "Swap request created successfully",
         payload := some (swapRequestOfRequest i t b) },
       { s with swapRequestsStorage := tableInsert i (swapRequestOfRequest i t b) s.swapRequestsStorage }) := by
  simp [postSwapRequests, h, swapRequestOfRequest, SwapRequest.make]

theorem postSwapRequests_invalid (i : String) (t : Nat) (b : Body)
    (s : AppState)
    (h : validateRequestBody b swapRequestRequiredFields = false) :
    postSwapRequests i t b s =
      ({ status := 400, error := some swapRequestValidationError,
         message := none, payload := none }, s) := by
  simp [postSwapRequests, h]

theorem postFeedback_valid (i : String) (t : Nat) (b : Body) (s : AppState)
    (h : validateRequestBody b feedbackRequiredFields = true) :
    postFeedback i t b s =
      ({ status := 201, error := none,
         message := some "Feedback created successfully",
         payload := some (feedbackOfRequest i t b) },
       { s with feedbackStorage :=
          tableInsert i (feedbackOfRequest i t b) s.feedbackStorage }) := by
  simp [postFeedback, h, feedbackOfRequest, Feedback.make]

theorem postFeedback_invalid (i : String) (t : Nat) (b : Body) (s : AppState)
    (h : validateRequestBody b feedbackRequiredFields = false) :
    postFeedback i t b s =
      ({ status := 400, error := some feedbackValidationError,
         message := none, payload := none }, s) := by
  simp [postFeedback, h]

/-- One create request's data: the uuid the generator returns, the clock
reading, and the parsed JSON body. -/
structure CreateInput where
  freshId : String
  now : Nat
  body : Body
deriving DecidableEq, Repr

/-- Run a sequence of POST /users requests. -/
def runUserCreates (reqs : List CreateInput) (s : AppState) : AppState :=
  reqs.foldl (fun st r => (postUsers r.freshId r.now r.body st).snd) s

/-- Run a sequence of POST /books requests. -/
def runBookCreates (reqs : List CreateInput) (s : AppState) : AppState :=
  reqs.foldl (fun st r => (postBooks r.freshId r.now r.body st).snd) s

/-- Run a sequence of POST /swapRequests requests. -/
def runSwapRequestCreates (reqs : List CreateInput) (s : AppState) : AppState :=
  reqs.foldl (fun st r => (postSwapRequests r.freshId r.now r.body st).snd) s

/-- Run a sequence of POST /feedback requests. -/
def runFeedbackCreates (reqs : List CreateInput) (s : AppState) : AppState :=
  reqs.foldl (fun st r => (postFeedback r.freshId r.now r.body st).snd) s

@[simp] theorem runUserCreates_nil (s : AppState) :
    runUserCreates [] s = s := rfl

@[simp] theorem runUserCreates_cons (r : CreateInput)
    (rest : List CreateInput) (s : AppState) :
    runUserCreates (r :: rest) s =
      runUserCreates rest (postUsers r.freshId r.now r.body s).snd := rfl

@[simp] theorem runBookCreates_nil (s : AppState) :
    runBookCreates [] s = s := rfl

@[simp] theorem runBookCreates_cons (r : CreateInput)
    (rest : List CreateInput) (s : AppState) :
    runBookCreates (r :: rest) s =
      runBookCreates rest (postBooks r.freshId r.now r.body s).snd := rfl

@[simp] theorem runSwapRequestCreates_nil (s : AppState) :
    runSwapRequestCreates [] s = s := rfl

@[simp] theorem runSwapRequestCreates_cons (r : CreateInput)
    (rest : List CreateInput) (s : AppState) :
    runSwapRequestCreates (r :: rest) s =
      runSwapRequestCreates rest (postSwapRequests r.freshId r.now r.body s).snd := rfl

@[simp] theorem runFeedbackCreates_nil (s : AppState) :
    runFeedbackCreates [] s = s := rfl

@[simp] theorem runFeedbackCreates_cons (r : CreateInput)
    (rest : List CreateInput) (s : AppState) :
    runFeedbackCreates (r :: rest) s =
      runFeedbackCreates rest (postFeedback r.freshId r.now r.body s).snd := rfl

/-- The (key, entity) pairs a sequence of successful user creates inserts. -/
def userEntries (reqs : List CreateInput) : List (String × User) :=
  reqs.map (fun r => (r.freshId, userOfRequest r.freshId r.now r.body))

/-- The (key, entity) pairs a sequence of successful book creates inserts. -/
def bookEntries (reqs : List CreateInput) : List (String × Book) :=
  reqs.map (fun r => (r.freshId, bookOfRequest r.freshId r.now r.body))

/-- The (key, entity) pairs of successful swap-request creates. -/
def swapRequestEntries (reqs : List CreateInput) :
    List (String × SwapRequest) :=
  reqs.map (fun r => (r.freshId, swapRequestOfRequest r.freshId r.now r.body))

/-- The (key, entity) pairs of successful feedback creates. -/
def feedbackEntries (reqs : List CreateInput) : List (String × Feedback) :=
  reqs.map (fun r => (r.freshId, feedbackOfRequest r.freshId r.now r.body))

theorem runUserCreates_eq_foldIns (reqs : List CreateInput) :
    ∀ s : AppState,
    (∀ r ∈ reqs, validateRequestBody r.body userRequiredFields = true) →
    runUserCreates reqs s =
      { s with usersStorage := foldIns (userEntries reqs) s.usersStorage } := by
  induction reqs with
  | nil => intro s _; rfl
  | cons r rest ih =>
    intro s hv
    have hr := hv r (List.mem_cons_self r rest)
    have hsnd : (postUsers r.freshId r.now r.body s).snd =
        { s with usersStorage := tableInsert r.freshId (userOfRequest r.freshId r.now r.body) s.usersStorage } := by
      rw [postUsers_valid _ _ _ _ hr]
    rw [runUserCreates_cons, hsnd,
      ih _ (fun x hx => hv x (List.mem_cons_of_mem _ hx))]
    simp [userEntries]

theorem runBookCreates_eq_foldIns (reqs : List CreateInput) :
    ∀ s : AppState,
    (∀ r ∈ reqs, validateRequestBody r.body bookRequiredFields = true) →
    runBookCreates reqs s =
      { s with booksStorage := foldIns (bookEntries reqs) s.booksStorage } := by
  induction reqs with
  | nil => intro s _; rfl
  | cons r rest ih =>
    intro s hv
    have hr := hv r (List.mem_cons_self r rest)
    have hsnd : (postBooks r.freshId r.now r.body s).snd =
        { s with booksStorage := tableInsert r.freshId (bookOfRequest r.freshId r.now r.body) s.booksStorage } := by
      rw [postBooks_valid _ _ _ _ hr]
    rw [runBookCreates_cons, hsnd,
      ih _ (fun x hx => hv x (List.mem_cons_of_mem _ hx))]
    simp [bookEntries]

theorem runSwapRequestCreates_eq_foldIns (reqs : List CreateInput) :
    ∀ s : AppState,
    (∀ r ∈ reqs, validateRequestBody r.body swapRequestRequiredFields = true) →
    runSwapRequestCreates reqs s =
      { s with swapRequestsStorage :=
          foldIns (swapRequestEntries reqs) s.swapRequestsStorage } := by
  induction reqs with
  | nil => intro s _; rfl
  | cons r rest ih =>
    intro s hv
    have hr := hv r (List.mem_cons_self r rest)
    have hsnd : (postSwapRequests r.freshId r.now r.body s).snd =
        { s with swapRequestsStorage := tableInsert r.freshId (swapRequestOfRequest r.freshId r.now r.body) s.swapRequestsStorage } := by
      rw [postSwapRequests_valid _ _ _ _ hr]
    rw [runSwapRequestCreates_cons, hsnd,
      ih _ (fun x hx => hv x (List.mem_cons_of_mem _ hx))]
    simp [swapRequestEntries]

theorem runFeedbackCreates_eq_foldIns (reqs : List CreateInput) :
    ∀ s : AppState,
    (∀ r ∈ reqs, validateRequestBody r.body feedbackRequiredFields = true) →
    runFeedbackCreates reqs s =
      { s with feedbackStorage :=
          foldIns (feedbackEntries reqs) s.feedbackStorage } := by
  induction reqs with
  | nil => intro s _; rfl
  | cons r rest ih =>
    intro s hv
    have hr := hv r (List.mem_cons_self r rest)
    have hsnd : (postFeedback r.freshId r.now r.body s).snd =
        { s with feedbackStorage := tableInsert r.freshId (feedbackOfRequest r.freshId r.now r.body) s.feedbackStorage } := by
      rw [postFeedback_valid _ _ _ _ hr]
    rw [runFeedbackCreates_cons, hsnd,
      ih _ (fun x hx => hv x (List.mem_cons_of_mem _ hx))]
    simp [feedbackEntries]

/-- The storage invariant: every stored entry is keyed by its own entity's
`id` field, in all four tables. -/
def wellKeyed (s : AppState) : Prop :=
  (∀ e ∈ s.usersStorage, e.snd.id = e.fst) ∧
  (∀ e ∈ s.booksStorage, e.snd.id = e.fst) ∧
  (∀ e ∈ s.swapRequestsStorage, e.snd.id = e.fst) ∧
  (∀ e ∈ s.feedbackStorage, e.snd.id = e.fst)

theorem table_pred_tableInsert {α : Type} (p : String × α → Prop)
    (k : String) (v : α) (t : List (String × α))
    (ht : ∀ e ∈ t, p e) (hv : p (k, v)) :
    ∀ e ∈ tableInsert k v t, p e := by
  intro e he
  rcases mem_tableInsert e k v t he with h | h
  · exact h ▸ hv
  · exact ht e h

/-- A pure read: which list endpoint is called. -/
inductive ListCall where
  | users : ListCall
  | books : ListCall
  | swaps : ListCall
  | feedback : ListCall

/-- State transition of one list call (the state a list handler leaves). -/
def applyListCall : ListCall → AppState → AppState
  | ListCall.users, s => (getUsers s).snd
  | ListCall.books, s => (getBooks s).snd
  | ListCall.swaps, s => (getSwapRequests s).snd
  | ListCall.feedback, s => (getFeedback s).snd

/-- Some required field of the body is JS `undefined` or `null`. -/
def hasMissingField (fields : List String) (b : Body) : Prop :=
  ∃ f ∈ fields, lookupField b f = none ∨ lookupField b f = some JsonValue.null

/-- Some required field of the body is present but the empty string. -/
def hasEmptyStringField (fields : List String) (b : Body) : Prop :=
  ∃ f ∈ fields, lookupField b f = some (JsonValue.str "")

theorem validateRequestBody_eq_false_of_missing (fields : List String)
    (b : Body) (h : hasMissingField fields b) :
    validateRequestBody b fields = false := by
  obtain ⟨f, hf, hv⟩ := h
  have hp : presentField (lookupField b f) = false := by
    rcases hv with hv | hv <;> rw [hv] <;> rfl
  rw [validateRequestBody]
  exact List.all_eq_false.mpr ⟨f, hf, by rw [hp]; exact Bool.false_ne_true⟩

@[simp] theorem truthy_emptyStr : truthy (some (JsonValue.str "")) = false := rfl

theorem stringFieldOk_emptyStr : stringFieldOk (some (JsonValue.str "")) = false := rfl

theorem numberFieldOk_emptyStr : numberFieldOk (some (JsonValue.str "")) = false := rfl

theorem validUserBody_eq_false_of_empty (b : Body)
    (h : hasEmptyStringField userRequiredFields b) :
    validUserBody b = false := by
  obtain ⟨f, hf, hv⟩ := h
  have hcases : f = "name" ∨ f = "email" := by
    simpa [userRequiredFields] using hf
  rcases hcases with h | h <;> subst h <;>
    simp [validUserBody, hv, stringFieldOk_emptyStr]

theorem validBookBody_eq_false_of_empty (b : Body)
    (h : hasEmptyStringField bookRequiredFields b) :
    validBookBody b = false := by
  obtain ⟨f, hf, hv⟩ := h
  have hcases : f = "userId" ∨ f = "title" ∨ f = "author" ∨ f = "description" := by
    simpa [bookRequiredFields] using hf
  rcases hcases with h | h | h | h <;> subst h <;>
    simp [validBookBody, hv, stringFieldOk_emptyStr]

theorem validSwapRequestBody_eq_false_of_empty (b : Body)
    (h : hasEmptyStringField swapRequestRequiredFields b) :
    validSwapRequestBody b = false := by
  obtain ⟨f, hf, hv⟩ := h
  have hcases : f = "bookId" ∨ f = "requestedById" ∨ f = "status" := by
    simpa [swapRequestRequiredFields] using hf
  rcases hcases with h | h | h <;> subst h <;>
    simp [validSwapRequestBody, hv, stringFieldOk_emptyStr]

theorem validFeedbackBody_eq_false_of_empty (b : Body)
    (h : hasEmptyStringField feedbackRequiredFields b) :
    validFeedbackBody b = false := by
  obtain ⟨f, hf, hv⟩ := h
  have hcases : f = "userId" ∨ f = "swapRequestId" ∨ f = "rating" ∨ f = "comment" := by
    simpa [feedbackRequiredFields] using hf
  rcases hcases with h | h | h | h <;> subst h <;>
    simp [validFeedbackBody, hv, stringFieldOk_emptyStr, numberFieldOk_emptyStr]

theorem postUsersTyped_invalid (i : String) (t : Nat) (b : Body)
    (s : AppState) (h : validUserBody b = false) :
    postUsersTyped i t b s =
      ({ status := 400, error := some userValidationError,
         message := none, payload := none }, s) := by
  simp [postUsersTyped, h]

theorem postBooksTyped_invalid (i : String) (t : Nat) (b : Body)
    (s : AppState) (h : validBookBody b = false) :
    postBooksTyped i t b s =
      ({ status := 400, error := some bookValidationError,
         message := none, payload := none }, s) := by
  simp [postBooksTyped, h]

theorem postSwapRequestsTyped_invalid (i : String) (t : Nat) (b : Body)
    (s : AppState) (h : validSwapRequestBody b = false) :
    postSwapRequestsTyped i t b s =
      ({ status := 400, error := some swapRequestValidationError,
         message := none, payload := none }, s) := by
  simp [postSwapRequestsTyped, h]

theorem postFeedbackTyped_invalid (i : String) (t : Nat) (b : Body)
    (s : AppState) (h : validFeedbackBody b = false) :
    postFeedbackTyped i t b s =
      ({ status := 400, error := some feedbackValidationError,
         message := none, payload := none }, s) := by
  simp [postFeedbackTyped, h]

theorem applyListCall_eq (c : ListCall) (s : AppState) :
    applyListCall c s = s := by
  cases c <;> rfl

theorem foldListCalls_eq (calls : List ListCall) :
    ∀ s : AppState, calls.foldl (fun st c => applyListCall c st) s = s := by
  induction calls with
  | nil => intro s; rfl
  | cons c rest ih =>
    intro s
    rw [List.foldl_cons, applyListCall_eq]
    exact ih s

theorem foldIns_from_empty_spec {α : Type} (entries : List (String × α))
    (hnd : (entries.map Prod.fst).Nodup) :
    (tableValues (foldIns entries [])).Perm (entries.map Prod.snd) ∧
    (foldIns entries []).length = entries.length ∧
    List.Sorted (· < ·) (tableKeys (foldIns entries [])) := by
  have hperm : (foldIns entries []).Perm entries := by
    simpa using foldIns_perm entries [] hnd (by simp [tableKeys])
  refine ⟨?_, hperm.length_eq, foldIns_sorted entries [] (by simp [tableKeys])⟩
  simpa [tableValues] using hperm.map Prod.snd

instance (fields : List String) (b : Body) :
    Decidable (hasMissingField fields b) := by
  unfold hasMissingField
  infer_instance

instance (fields : List String) (b : Body) :
    Decidable (hasEmptyStringField fields b) := by
  unfold hasEmptyStringField
  infer_instance

instance (s : AppState) : Decidable (wellKeyed s) := by
  unfold wellKeyed
  infer_instance

/-- The C1 scenario request body: rating supplied as the string "five". -/
def wrongRatingBody : Body :=
  [("userId", JsonValue.str "u1"), ("swapRequestId", JsonValue.str "s1"),
   ("rating", JsonValue.str "five"), ("comment", JsonValue.str "ok")]

/-- C1: evaluation at the failing input.  The claim says a create request
with a wrong-typed required field (POST /feedback with rating the string
"five") gets 400 and stores nothing.  The current index.ts code contradicts
this (and its own error message promising type checks): its
`validateRequestBody` only tests presence/non-null, so the request passes
validation, responds 201 and stores the feedback with the string rating;
the repository's per-route typed-check variant of the same endpoint rejects
it with 400 and stores nothing, as the claim says. -/
theorem c1_wrong_typed_rating_evaluation :
    validateRequestBody wrongRatingBody feedbackRequiredFields = true ∧
    (postFeedback "f1" 5 wrongRatingBody emptyState).fst.status = 201 ∧
    (postFeedback "f1" 5 wrongRatingBody emptyState).snd.feedbackStorage =
      [("f1", Feedback.make "f1" 5 (JsonValue.str "u1") (JsonValue.str "s1")
        (JsonValue.str "five") (JsonValue.str "ok"))] ∧
    (postFeedbackTyped "f1" 5 wrongRatingBody emptyState).fst.status = 400 ∧
    (postFeedbackTyped "f1" 5 wrongRatingBody emptyState).snd = emptyState := by
  decide

/-- C3 counterexample: under index.ts, POST /users with name and email both
present but equal to "" passes `validateRequestBody` (presence-only), so the
endpoint responds 201 and stores the user — refuting the claim that every
create request with an empty required string field responds 400 and stores
nothing. -/
theorem c3_counterexample_empty_strings_accepted :
    (postUsers "u1" 0 [("name", JsonValue.str ""), ("email", JsonValue.str "")]
      emptyState).fst.status = 201 ∧
    (postUsers "u1" 0 [("name", JsonValue.str ""), ("email", JsonValue.str "")]
      emptyState).snd.usersStorage =
      [("u1", User.make "u1" 0 (JsonValue.str "") (JsonValue.str ""))] := by
  decide

/-- C3 amended: under the repository's per-route typed-check variant, a
create request with a required field present but equal to the empty string
is rejected with 400 and no table changes (the truthiness test fails on "");
the presence-only index.ts validator instead accepts empty strings. -/
theorem c3_empty_string_rejected_by_typed_guards (s : AppState) (i : String)
    (t : Nat) (b : Body) :
    (hasEmptyStringField userRequiredFields b →
      postUsersTyped i t b s =
        ({ status := 400, error := some userValidationError,
           message := none, payload := none }, s)) ∧
    (hasEmptyStringField bookRequiredFields b →
      postBooksTyped i t b s =
        ({ status := 400, error := some bookValidationError,
           message := none, payload := none }, s)) ∧
    (hasEmptyStringField swapRequestRequiredFields b →
      postSwapRequestsTyped i t b s =
        ({ status := 400, error := some swapRequestValidationError,
           message := none, payload := none }, s)) ∧
    (hasEmptyStringField feedbackRequiredFields b →
      postFeedbackTyped i t b s =
        ({ status := 400, error := some feedbackValidationError,
           message := none, payload := none }, s)) := by
  refine ⟨fun h => ?_, fun h => ?_, fun h => ?_, fun h => ?_⟩
  · exact postUsersTyped_invalid i t b s (validUserBody_eq_false_of_empty b h)
  · exact postBooksTyped_invalid i t b s (validBookBody_eq_false_of_empty b h)
  · exact postSwapRequestsTyped_invalid i t b s
      (validSwapRequestBody_eq_false_of_empty b h)
  · exact postFeedbackTyped_invalid i t b s
      (validFeedbackBody_eq_false_of_empty b h)

/-- A body holding an empty string in a required field of each of the four
endpoints at once. -/
def allEmptyBody : Body :=
  [("name", JsonValue.str ""), ("userId", JsonValue.str ""),
   ("bookId", JsonValue.str "")]

/-- C3 amended, witness: evaluated on a body carrying an empty-string
required field for each endpoint, all four typed-variant creates answer 400
and leave the state untouched. -/
theorem c3_empty_string_rejected_by_typed_guards_witness :
    postUsersTyped "x" 0 allEmptyBody emptyState =
      ({ status := 400, error := some userValidationError,
         message := none, payload := none }, emptyState) ∧
    postBooksTyped "x" 0 allEmptyBody emptyState =
      ({ status := 400, error := some bookValidationError,
         message := none, payload := none }, emptyState) ∧
    postSwapRequestsTyped "x" 0 allEmptyBody emptyState =
      ({ status := 400, error := some swapRequestValidationError,
         message := none, payload := none }, emptyState) ∧
    postFeedbackTyped "x" 0 allEmptyBody emptyState =
      ({ status := 400, error := some feedbackValidationError,
         message := none, payload := none }, emptyState) := by
  have h := c3_empty_string_rejected_by_typed_guards emptyState "x" 0 allEmptyBody
  exact ⟨h.1 (by decide), h.2.1 (by decide), h.2.2.1 (by decide),
    h.2.2.2 (by decide)⟩

/-- C5: a POST /users request that passes validation is answered 201 with a
user carrying the submitted name and email values verbatim (the raw body
values, no trimming or normalization), the freshly generated id — non-empty
by the generator assumption — and the construction-time timestamp. -/
theorem c5_valid_user_create_verbatim (s : AppState) (i : String) (t : Nat)
    (b : Body) (hvalid : validateRequestBody b userRequiredFields = true)
    (hid : i ≠ "") :
    (postUsers i t b s).fst.status = 201 ∧
    (postUsers i t b s).fst.payload =
      some { id := i, name := rawField b "name", email := rawField b "email",
             createdAt := t } ∧
    i ≠ "" := by
  rw [postUsers_valid i t b s hvalid]
  exact ⟨rfl, rfl, hid⟩

/-- C5 witness: the Ada scenario, with generated id "u-1" and clock 7. -/
theorem c5_valid_user_create_verbatim_witness :
    (postUsers "u-1" 7 [("name", JsonValue.str "Ada"),
      ("email", JsonValue.str "ada@example.com")] emptyState).fst.status = 201 ∧
    (postUsers "u-1" 7 [("name", JsonValue.str "Ada"),
      ("email", JsonValue.str "ada@example.com")] emptyState).fst.payload =
      some { id := "u-1", name := JsonValue.str "Ada",
             email := JsonValue.str "ada@example.com", createdAt := 7 } ∧
    "u-1" ≠ "" :=
  c5_valid_user_create_verbatim emptyState "u-1" 7
    [("name", JsonValue.str "Ada"), ("email", JsonValue.str "ada@example.com")]
    (by decide) (by decide)

/-- C8: list endpoints are pure reads: each GET handler returns the state it
was given, repeating a list call yields the identical response, and any
sequence of list calls leaves every storage table exactly as it was. -/
theorem c8_list_endpoints_pure_reads :
    ∀ s : AppState,
    (getUsers s).snd = s ∧ (getBooks s).snd = s ∧
    (getSwapRequests s).snd = s ∧ (getFeedback s).snd = s ∧
    (getUsers ((getUsers s).snd)).fst = (getUsers s).fst ∧
    (getBooks ((getBooks s).snd)).fst = (getBooks s).fst ∧
    (getSwapRequests ((getSwapRequests s).snd)).fst =
      (getSwapRequests s).fst ∧
    (getFeedback ((getFeedback s).snd)).fst = (getFeedback s).fst ∧
    ∀ calls : List ListCall,
      calls.foldl (fun st c => applyListCall c st) s = s := by
  intro s
  exact ⟨rfl, rfl, rfl, rfl, rfl, rfl, rfl, rfl,
    fun calls => foldListCalls_eq calls s⟩

/-- C2: a create request with a required field missing (undefined) or null
is answered 400 with the route's fixed error message — which names every
required field of that route — and the state, hence every storage table, is
returned unchanged. -/
theorem c2_missing_required_field_rejected (s : AppState) (i : String)
    (t : Nat) (b : Body) :
    (hasMissingField userRequiredFields b →
      postUsers i t b s =
        ({ status := 400, error := some userValidationError,
           message := none, payload := none }, s)) ∧
    (hasMissingField bookRequiredFields b →
      postBooks i t b s =
        ({ status := 400, error := some bookValidationError,
           message := none, payload := none }, s)) ∧
    (hasMissingField swapRequestRequiredFields b →
      postSwapRequests i t b s =
        ({ status := 400, error := some swapRequestValidationError,
           message := none, payload := none }, s)) ∧
    (hasMissingField feedbackRequiredFields b →
      postFeedback i t b s =
        ({ status := 400, error := some feedbackValidationError,
           message := none, payload := none }, s)) ∧
    (∀ f ∈ userRequiredFields, mentionsField userValidationError f = true) ∧
    (∀ f ∈ bookRequiredFields, mentionsField bookValidationError f = true) ∧
    (∀ f ∈ swapRequestRequiredFields,
      mentionsField swapRequestValidationError f = true) ∧
    (∀ f ∈ feedbackRequiredFields,
      mentionsField feedbackValidationError f = true) := by
  refine ⟨fun h => ?_, fun h => ?_, fun h => ?_, fun h => ?_,
    by decide, by decide, by decide, by decide⟩
  · exact postUsers_invalid i t b s
      (validateRequestBody_eq_false_of_missing _ _ h)
  · exact postBooks_invalid i t b s
      (validateRequestBody_eq_false_of_missing _ _ h)
  · exact postSwapRequests_invalid i t b s
      (validateRequestBody_eq_false_of_missing _ _ h)
  · exact postFeedback_invalid i t b s
      (validateRequestBody_eq_false_of_missing _ _ h)

/-- The C2 scenario body: a book create missing its description field. -/
def missingDescriptionBody : Body :=
  [("userId", JsonValue.str "u1"), ("title", JsonValue.str "T"),
   ("author", JsonValue.str "A")]

/-- C2 witness: the missing-description book scenario gets 400 and an
unchanged state, and the empty body is rejected the same way by all four
create endpoints. -/
theorem c2_missing_required_field_rejected_witness :
    postBooks "b1" 3 missingDescriptionBody emptyState =
      ({ status := 400, error := some bookValidationError,
         message := none, payload := none }, emptyState) ∧
    postUsers "x" 0 [] emptyState =
      ({ status := 400, error := some userValidationError,
         message := none, payload := none }, emptyState) ∧
    postSwapRequests "x" 0 [] emptyState =
      ({ status := 400, error := some swapRequestValidationError,
         message := none, payload := none }, emptyState) ∧
    postFeedback "x" 0 [] emptyState =
      ({ status := 400, error := some feedbackValidationError,
         message := none, payload := none }, emptyState) := by
  have hb := c2_missing_required_field_rejected emptyState "b1" 3
    missingDescriptionBody
  have he := c2_missing_required_field_rejected emptyState "x" 0 []
  exact ⟨hb.2.1 (by decide), he.1 (by decide), he.2.2.1 (by decide),
    he.2.2.2.1 (by decide)⟩

/-- C4: a POST /feedback body with userId, swapRequestId and comment
non-empty strings and rating any number — zero included — passes index.ts
validation; the endpoint responds 201 with the success envelope and the
constructed feedback, and inserts it into the feedback table. -/
theorem c4_feedback_number_rating_created (s : AppState) (i : String)
    (t : Nat) (b : Body) (su sw sc : String) (r : Int)
    (hu : lookupField b "userId" = some (JsonValue.str su)) (hu2 : su ≠ "")
    (hw : lookupField b "swapRequestId" = some (JsonValue.str sw))
    (hw2 : sw ≠ "")
    (hr : lookupField b "rating" = some (JsonValue.num r))
    (hc : lookupField b "comment" = some (JsonValue.str sc)) (hc2 : sc ≠ "") :
    validateRequestBody b feedbackRequiredFields = true ∧
    postFeedback i t b s =
      ({ status := 201, error := none,
         message := some "Feedback created successfully",
         payload := some (feedbackOfRequest i t b) },
       { s with feedbackStorage := tableInsert i (feedbackOfRequest i t b) s.feedbackStorage }) := by
  have hv : validateRequestBody b feedbackRequiredFields = true := by
    simp [validateRequestBody, feedbackRequiredFields, hu, hw, hr, hc,
      presentField]
  exact ⟨hv, postFeedback_valid i t b s hv⟩

/-- The C4 witness body: rating is the number 0. -/
def zeroRatingBody : Body :=
  [("userId", JsonValue.str "u1"), ("swapRequestId", JsonValue.str "s1"),
   ("rating", JsonValue.num 0), ("comment", JsonValue.str "ok")]

/-- C4 witness: rating 0 with non-empty string fields is accepted: 201,
success message, feedback constructed and inserted. -/
theorem c4_feedback_number_rating_created_witness :
    validateRequestBody zeroRatingBody feedbackRequiredFields = true ∧
    postFeedback "f1" 9 zeroRatingBody emptyState =
      ({ status := 201, error := none,
         message := some "Feedback created successfully",
         payload := some (feedbackOfRequest "f1" 9 zeroRatingBody) },
       { emptyState with feedbackStorage := tableInsert "f1" (feedbackOfRequest "f1" 9 zeroRatingBody) emptyState.feedbackStorage }) :=
  c4_feedback_number_rating_created emptyState "f1" 9 zeroRatingBody
    "u1" "s1" "ok" 0 (by decide) (by decide) (by decide) (by decide)
    (by decide) (by decide) (by decide)

/-- C9: a create request that passes validation changes the state to
exactly the old state with the new entity inserted into its own entity's
table — the other three tables are therefore untouched — growing that table
by one entry when the generated id is fresh; a create that fails validation
returns the state unchanged, performing no side effect. -/
theorem c9_create_mutates_exactly_one_table (s : AppState) (i : String)
    (t : Nat) (b : Body) :
    ((validateRequestBody b userRequiredFields = true →
      (postUsers i t b s).snd = { s with usersStorage := tableInsert i (userOfRequest i t b) s.usersStorage } ∧
      (i ∉ tableKeys s.usersStorage →
        (postUsers i t b s).snd.usersStorage.length =
          s.usersStorage.length + 1)) ∧
     (validateRequestBody b userRequiredFields = false →
      (postUsers i t b s).snd = s)) ∧
    ((validateRequestBody b bookRequiredFields = true →
      (postBooks i t b s).snd = { s with booksStorage := tableInsert i (bookOfRequest i t b) s.booksStorage } ∧
      (i ∉ tableKeys s.booksStorage →
        (postBooks i t b s).snd.booksStorage.length =
          s.booksStorage.length + 1)) ∧
     (validateRequestBody b bookRequiredFields = false →
      (postBooks i t b s).snd = s)) ∧
    ((validateRequestBody b swapRequestRequiredFields = true →
      (postSwapRequests i t b s).snd = { s with swapRequestsStorage := tableInsert i (swapRequestOfRequest i t b) s.swapRequestsStorage } ∧
      (i ∉ tableKeys s.swapRequestsStorage →
        (postSwapRequests i t b s).snd.swapRequestsStorage.length =
          s.swapRequestsStorage.length + 1)) ∧
     (validateRequestBody b swapRequestRequiredFields = false →
      (postSwapRequests i t b s).snd = s)) ∧
    ((validateRequestBody b feedbackRequiredFields = true →
      (postFeedback i t b s).snd = { s with feedbackStorage := tableInsert i (feedbackOfRequest i t b) s.feedbackStorage } ∧
      (i ∉ tableKeys s.feedbackStorage →
        (postFeedback i t b s).snd.feedbackStorage.length =
          s.feedbackStorage.length + 1)) ∧
     (validateRequestBody b feedbackRequiredFields = false →
      (postFeedback i t b s).snd = s)) := by
  refine ⟨⟨?_, ?_⟩, ⟨?_, ?_⟩, ⟨?_, ?_⟩, ⟨?_, ?_⟩⟩ <;> intro h
  · rw [postUsers_valid i t b s h]
    exact ⟨rfl, fun hf => length_tableInsert_fresh i _ _ hf⟩
  · rw [postUsers_invalid i t b s h]
  · rw [postBooks_valid i t b s h]
    exact ⟨rfl, fun hf => length_tableInsert_fresh i _ _ hf⟩
  · rw [postBooks_invalid i t b s h]
  · rw [postSwapRequests_valid i t b s h]
    exact ⟨rfl, fun hf => length_tableInsert_fresh i _ _ hf⟩
  · rw [postSwapRequests_invalid i t b s h]
  · rw [postFeedback_valid i t b s h]
    exact ⟨rfl, fun hf => length_tableInsert_fresh i _ _ hf⟩
  · rw [postFeedback_invalid i t b s h]

/-- A body valid for all four create endpoints at once. -/
def allFieldsBody : Body :=
  [("name", JsonValue.str "N"), ("email", JsonValue.str "E"),
   ("userId", JsonValue.str "U"), ("title", JsonValue.str "T"),
   ("author", JsonValue.str "A"), ("description", JsonValue.str "D"),
   ("bookId", JsonValue.str "B"), ("requestedById", JsonValue.str "R"),
   ("status", JsonValue.str "S"), ("swapRequestId", JsonValue.str "Q"),
   ("rating", JsonValue.num 5), ("comment", JsonValue.str "C")]

/-- C9 witness: on a body valid for every endpoint each create updates only
its own table (growing it by one from the empty state), and on the empty
body each create leaves the state untouched. -/
theorem c9_create_mutates_exactly_one_table_witness :
    (postUsers "x" 0 allFieldsBody emptyState).snd =
      { emptyState with usersStorage := tableInsert "x" (userOfRequest "x" 0 allFieldsBody) emptyState.usersStorage } ∧
    (postUsers "x" 0 allFieldsBody emptyState).snd.usersStorage.length =
      emptyState.usersStorage.length + 1 ∧
    (postBooks "x" 0 allFieldsBody emptyState).snd =
      { emptyState with booksStorage := tableInsert "x" (bookOfRequest "x" 0 allFieldsBody) emptyState.booksStorage } ∧
    (postBooks "x" 0 allFieldsBody emptyState).snd.booksStorage.length =
      emptyState.booksStorage.length + 1 ∧
    (postSwapRequests "x" 0 allFieldsBody emptyState).snd =
      { emptyState with swapRequestsStorage := tableInsert "x" (swapRequestOfRequest "x" 0 allFieldsBody) emptyState.swapRequestsStorage } ∧
    (postSwapRequests "x" 0 allFieldsBody emptyState).snd.swapRequestsStorage.length =
      emptyState.swapRequestsStorage.length + 1 ∧
    (postFeedback "x" 0 allFieldsBody emptyState).snd =
      { emptyState with feedbackStorage := tableInsert "x" (feedbackOfRequest "x" 0 allFieldsBody) emptyState.feedbackStorage } ∧
    (postFeedback "x" 0 allFieldsBody emptyState).snd.feedbackStorage.length =
      emptyState.feedbackStorage.length + 1 ∧
    (postUsers "x" 0 [] emptyState).snd = emptyState ∧
    (postBooks "x" 0 [] emptyState).snd = emptyState ∧
    (postSwapRequests "x" 0 [] emptyState).snd = emptyState ∧
    (postFeedback "x" 0 [] emptyState).snd = emptyState := by
  have hv := c9_create_mutates_exactly_one_table emptyState "x" 0 allFieldsBody
  have hi := c9_create_mutates_exactly_one_table emptyState "x" 0 []
  refine ⟨(hv.1.1 (by decide)).1, (hv.1.1 (by decide)).2 (by decide),
    (hv.2.1.1 (by decide)).1, (hv.2.1.1 (by decide)).2 (by decide),
    (hv.2.2.1.1 (by decide)).1, (hv.2.2.1.1 (by decide)).2 (by decide),
    (hv.2.2.2.1 (by decide)).1, (hv.2.2.2.1 (by decide)).2 (by decide),
    hi.1.2 (by decide), hi.2.1.2 (by decide), hi.2.2.1.2 (by decide),
    hi.2.2.2.2 (by decide)⟩

/-- C10: the key-equals-id invariant: if every stored entry of every table
is keyed by its entity's id, then after any of the eight endpoints runs the
invariant still holds — each create inserts the new entity under its own
freshly generated id, and list calls do not write. -/
theorem c10_table_keys_equal_entity_ids (s : AppState) (i : String) (t : Nat)
    (b : Body) (hw : wellKeyed s) :
    wellKeyed (postUsers i t b s).snd ∧ wellKeyed (postBooks i t b s).snd ∧
    wellKeyed (postSwapRequests i t b s).snd ∧
    wellKeyed (postFeedback i t b s).snd ∧
    wellKeyed (getUsers s).snd ∧ wellKeyed (getBooks s).snd ∧
    wellKeyed (getSwapRequests s).snd ∧ wellKeyed (getFeedback s).snd := by
  obtain ⟨hu, hb, hsw, hf⟩ := hw
  refine ⟨?_, ?_, ?_, ?_, ⟨hu, hb, hsw, hf⟩, ⟨hu, hb, hsw, hf⟩,
    ⟨hu, hb, hsw, hf⟩, ⟨hu, hb, hsw, hf⟩⟩
  · cases hv : validateRequestBody b userRequiredFields with
    | true =>
      rw [postUsers_valid i t b s hv]
      exact ⟨table_pred_tableInsert _ i _ _ hu rfl, hb, hsw, hf⟩
    | false =>
      rw [postUsers_invalid i t b s hv]
      exact ⟨hu, hb, hsw, hf⟩
  · cases hv : validateRequestBody b bookRequiredFields with
    | true =>
      rw [postBooks_valid i t b s hv]
      exact ⟨hu, table_pred_tableInsert _ i _ _ hb rfl, hsw, hf⟩
    | false =>
      rw [postBooks_invalid i t b s hv]
      exact ⟨hu, hb, hsw, hf⟩
  · cases hv : validateRequestBody b swapRequestRequiredFields with
    | true =>
      rw [postSwapRequests_valid i t b s hv]
      exact ⟨hu, hb, table_pred_tableInsert _ i _ _ hsw rfl, hf⟩
    | false =>
      rw [postSwapRequests_invalid i t b s hv]
      exact ⟨hu, hb, hsw, hf⟩
  · cases hv : validateRequestBody b feedbackRequiredFields with
    | true =>
      rw [postFeedback_valid i t b s hv]
      exact ⟨hu, hb, hsw, table_pred_tableInsert _ i _ _ hf rfl⟩
    | false =>
      rw [postFeedback_invalid i t b s hv]
      exact ⟨hu, hb, hsw, hf⟩

/-- C10 witness: from the empty (trivially well-keyed) state, running each
endpoint on a body valid for every route preserves the invariant. -/
theorem c10_table_keys_equal_entity_ids_witness :
    wellKeyed (postUsers "x" 0 allFieldsBody emptyState).snd ∧
    wellKeyed (postBooks "x" 0 allFieldsBody emptyState).snd ∧
    wellKeyed (postSwapRequests "x" 0 allFieldsBody emptyState).snd ∧
    wellKeyed (postFeedback "x" 0 allFieldsBody emptyState).snd ∧
    wellKeyed (getUsers emptyState).snd ∧
    wellKeyed (getBooks emptyState).snd ∧
    wellKeyed (getSwapRequests emptyState).snd ∧
    wellKeyed (getFeedback emptyState).snd :=
  c10_table_keys_equal_entity_ids emptyState "x" 0 allFieldsBody (by decide)

/-- C6: starting from the empty deployment state, after any sequence of
successful creates of one entity type whose generated ids are collision
free, the matching GET list endpoint returns 200 with exactly the created
entities — one per successful create — the table holding them in ascending
key order. -/
theorem c6_list_returns_exactly_created (reqs : List CreateInput) :
    ((∀ r ∈ reqs, validateRequestBody r.body userRequiredFields = true) →
     (reqs.map CreateInput.freshId).Nodup →
      (getUsers (runUserCreates reqs emptyState)).fst.status = 200 ∧
      (getUsers (runUserCreates reqs emptyState)).fst.items.length =
        reqs.length ∧
      ((getUsers (runUserCreates reqs emptyState)).fst.items).Perm
        (reqs.map (fun r => userOfRequest r.freshId r.now r.body)) ∧
      List.Sorted (· < ·)
        (tableKeys (runUserCreates reqs emptyState).usersStorage)) ∧
    ((∀ r ∈ reqs, validateRequestBody r.body bookRequiredFields = true) →
     (reqs.map CreateInput.freshId).Nodup →
      (getBooks (runBookCreates reqs emptyState)).fst.status = 200 ∧
      (getBooks (runBookCreates reqs emptyState)).fst.items.length =
        reqs.length ∧
      ((getBooks (runBookCreates reqs emptyState)).fst.items).Perm
        (reqs.map (fun r => bookOfRequest r.freshId r.now r.body)) ∧
      List.Sorted (· < ·)
        (tableKeys (runBookCreates reqs emptyState).booksStorage)) ∧
    ((∀ r ∈ reqs,
        validateRequestBody r.body swapRequestRequiredFields = true) →
     (reqs.map CreateInput.freshId).Nodup →
      (getSwapRequests (runSwapRequestCreates reqs emptyState)).fst.status =
        200 ∧
      (getSwapRequests
        (runSwapRequestCreates reqs emptyState)).fst.items.length =
        reqs.length ∧
      ((getSwapRequests (runSwapRequestCreates reqs emptyState)).fst.items).Perm
        (reqs.map (fun r => swapRequestOfRequest r.freshId r.now r.body)) ∧
      List.Sorted (· < ·)
        (tableKeys
          (runSwapRequestCreates reqs emptyState).swapRequestsStorage)) ∧
    ((∀ r ∈ reqs, validateRequestBody r.body feedbackRequiredFields = true) →
     (reqs.map CreateInput.freshId).Nodup →
      (getFeedback (runFeedbackCreates reqs emptyState)).fst.status = 200 ∧
      (getFeedback (runFeedbackCreates reqs emptyState)).fst.items.length =
        reqs.length ∧
      ((getFeedback (runFeedbackCreates reqs emptyState)).fst.items).Perm
        (reqs.map (fun r => feedbackOfRequest r.freshId r.now r.body)) ∧
      List.Sorted (· < ·)
        (tableKeys (runFeedbackCreates reqs emptyState).feedbackStorage)) := by
  refine ⟨fun hv hnd => ?_, fun hv hnd => ?_, fun hv hnd => ?_,
    fun hv hnd => ?_⟩
  · have hstate := runUserCreates_eq_foldIns reqs emptyState hv
    have hkeys : (userEntries reqs).map Prod.fst =
        reqs.map CreateInput.freshId := by
      simp [userEntries]
    have hspec := foldIns_from_empty_spec (userEntries reqs)
      (by rw [hkeys]; exact hnd)
    have hsnd : (userEntries reqs).map Prod.snd =
        reqs.map (fun r => userOfRequest r.freshId r.now r.body) := by
      simp [userEntries]
    rw [hstate]
    refine ⟨rfl, ?_, ?_, ?_⟩
    · show (tableValues (foldIns (userEntries reqs) [])).length = reqs.length
      rw [tableValues, List.length_map, hspec.2.1, userEntries,
        List.length_map]
    · show (tableValues (foldIns (userEntries reqs) [])).Perm
        (reqs.map (fun r => userOfRequest r.freshId r.now r.body))
      exact hsnd ▸ hspec.1
    · exact hspec.2.2
  · have hstate := runBookCreates_eq_foldIns reqs emptyState hv
    have hkeys : (bookEntries reqs).map Prod.fst =
        reqs.map CreateInput.freshId := by
      simp [bookEntries]
    have hspec := foldIns_from_empty_spec (bookEntries reqs)
      (by rw [hkeys]; exact hnd)
    have hsnd : (bookEntries reqs).map Prod.snd =
        reqs.map (fun r => bookOfRequest r.freshId r.now r.body) := by
      simp [bookEntries]
    rw [hstate]
    refine ⟨rfl, ?_, ?_, ?_⟩
    · show (tableValues (foldIns (bookEntries reqs) [])).length = reqs.length
      rw [tableValues, List.length_map, hspec.2.1, bookEntries,
        List.length_map]
    · show (tableValues (foldIns (bookEntries reqs) [])).Perm
        (reqs.map (fun r => bookOfRequest r.freshId r.now r.body))
      exact hsnd ▸ hspec.1
    · exact hspec.2.2
  · have hstate := runSwapRequestCreates_eq_foldIns reqs emptyState hv
    have hkeys : (swapRequestEntries reqs).map Prod.fst =
        reqs.map CreateInput.freshId := by
      simp [swapRequestEntries]
    have hspec := foldIns_from_empty_spec (swapRequestEntries reqs)
      (by rw [hkeys]; exact hnd)
    have hsnd : (swapRequestEntries reqs).map Prod.snd =
        reqs.map (fun r => swapRequestOfRequest r.freshId r.now r.body) := by
      simp [swapRequestEntries]
    rw [hstate]
    refine ⟨rfl, ?_, ?_, ?_⟩
    · show (tableValues (foldIns (swapRequestEntries reqs) [])).length =
        reqs.length
      rw [tableValues, List.length_map, hspec.2.1, swapRequestEntries,
        List.length_map]
    · show (tableValues (foldIns (swapRequestEntries reqs) [])).Perm
        (reqs.map (fun r => swapRequestOfRequest r.freshId r.now r.body))
      exact hsnd ▸ hspec.1
    · exact hspec.2.2
  · have hstate := runFeedbackCreates_eq_foldIns reqs emptyState hv
    have hkeys : (feedbackEntries reqs).map Prod.fst =
        reqs.map CreateInput.freshId := by
      simp [feedbackEntries]
    have hspec := foldIns_from_empty_spec (feedbackEntries reqs)
      (by rw [hkeys]; exact hnd)
    have hsnd : (feedbackEntries reqs).map Prod.snd =
        reqs.map (fun r => feedbackOfRequest r.freshId r.now r.body) := by
      simp [feedbackEntries]
    rw [hstate]
    refine ⟨rfl, ?_, ?_, ?_⟩
    · show (tableValues (foldIns (feedbackEntries reqs) [])).length =
        reqs.length
      rw [tableValues, List.length_map, hspec.2.1, feedbackEntries,
        List.length_map]
    · show (tableValues (foldIns (feedbackEntries reqs) [])).Perm
        (reqs.map (fun r => feedbackOfRequest r.freshId r.now r.body))
      exact hsnd ▸ hspec.1
    · exact hspec.2.2

/-- The C6 scenario: three user create requests with distinct fresh ids. -/
def threeUserReqs : List CreateInput :=
  [{ freshId := "id-a", now := 1,
     body := [("name", JsonValue.str "Ada"), ("email", JsonValue.str "a@x")] },
   { freshId := "id-b", now := 2,
     body := [("name", JsonValue.str "Bob"), ("email", JsonValue.str "b@x")] },
   { freshId := "id-c", now := 3,
     body := [("name", JsonValue.str "Cat"), ("email", JsonValue.str "c@x")] }]

/-- C6 witness: create 3 users, then GET /users answers 200 with exactly
the three created users, keys sorted ascending. -/
theorem c6_list_returns_exactly_created_witness :
    (getUsers (runUserCreates threeUserReqs emptyState)).fst.status = 200 ∧
    (getUsers (runUserCreates threeUserReqs emptyState)).fst.items.length =
      threeUserReqs.length ∧
    ((getUsers (runUserCreates threeUserReqs emptyState)).fst.items).Perm
      (threeUserReqs.map (fun r => userOfRequest r.freshId r.now r.body)) ∧
    List.Sorted (· < ·)
      (tableKeys (runUserCreates threeUserReqs emptyState).usersStorage) :=
  (c6_list_returns_exactly_created threeUserReqs).1 (by decide) (by decide)

/-- C7: on each of the four create endpoints, two successful create
requests with the same body and distinct collision-free fresh ids each
answer 201 and produce two distinct entities with distinct ids; both are
stored under their own ids — the first entity untouched by the second
insert — and that endpoint's table grows by exactly two. -/
theorem c7_identical_bodies_two_distinct_entities (s : AppState)
    (i1 i2 : String) (t1 t2 : Nat) (b : Body) (hne : i1 ≠ i2) :
    (validateRequestBody b userRequiredFields = true →
     i1 ∉ tableKeys s.usersStorage → i2 ∉ tableKeys s.usersStorage →
      (postUsers i1 t1 b s).fst.status = 201 ∧
      (postUsers i2 t2 b (postUsers i1 t1 b s).snd).fst.status = 201 ∧
      (postUsers i1 t1 b s).fst.payload = some (userOfRequest i1 t1 b) ∧
      (postUsers i2 t2 b (postUsers i1 t1 b s).snd).fst.payload =
        some (userOfRequest i2 t2 b) ∧
      (userOfRequest i1 t1 b).id ≠ (userOfRequest i2 t2 b).id ∧
      userOfRequest i1 t1 b ≠ userOfRequest i2 t2 b ∧
      tableLookup i1 (postUsers i2 t2 b (postUsers i1 t1 b s).snd).snd.usersStorage =
        some (userOfRequest i1 t1 b) ∧
      tableLookup i2 (postUsers i2 t2 b (postUsers i1 t1 b s).snd).snd.usersStorage =
        some (userOfRequest i2 t2 b) ∧
      (postUsers i2 t2 b (postUsers i1 t1 b s).snd).snd.usersStorage.length =
        s.usersStorage.length + 2) ∧
    (validateRequestBody b bookRequiredFields = true →
     i1 ∉ tableKeys s.booksStorage → i2 ∉ tableKeys s.booksStorage →
      (postBooks i1 t1 b s).fst.status = 201 ∧
      (postBooks i2 t2 b (postBooks i1 t1 b s).snd).fst.status = 201 ∧
      (postBooks i1 t1 b s).fst.payload = some (bookOfRequest i1 t1 b) ∧
      (postBooks i2 t2 b (postBooks i1 t1 b s).snd).fst.payload =
        some (bookOfRequest i2 t2 b) ∧
      (bookOfRequest i1 t1 b).id ≠ (bookOfRequest i2 t2 b).id ∧
      bookOfRequest i1 t1 b ≠ bookOfRequest i2 t2 b ∧
      tableLookup i1 (postBooks i2 t2 b (postBooks i1 t1 b s).snd).snd.booksStorage =
        some (bookOfRequest i1 t1 b) ∧
      tableLookup i2 (postBooks i2 t2 b (postBooks i1 t1 b s).snd).snd.booksStorage =
        some (bookOfRequest i2 t2 b) ∧
      (postBooks i2 t2 b (postBooks i1 t1 b s).snd).snd.booksStorage.length =
        s.booksStorage.length + 2) ∧
    (validateRequestBody b swapRequestRequiredFields = true →
     i1 ∉ tableKeys s.swapRequestsStorage → i2 ∉ tableKeys s.swapRequestsStorage →
      (postSwapRequests i1 t1 b s).fst.status = 201 ∧
      (postSwapRequests i2 t2 b (postSwapRequests i1 t1 b s).snd).fst.status = 201 ∧
      (postSwapRequests i1 t1 b s).fst.payload = some (swapRequestOfRequest i1 t1 b) ∧
      (postSwapRequests i2 t2 b (postSwapRequests i1 t1 b s).snd).fst.payload =
        some (swapRequestOfRequest i2 t2 b) ∧
      (swapRequestOfRequest i1 t1 b).id ≠ (swapRequestOfRequest i2 t2 b).id ∧
      swapRequestOfRequest i1 t1 b ≠ swapRequestOfRequest i2 t2 b ∧
      tableLookup i1 (postSwapRequests i2 t2 b (postSwapRequests i1 t1 b s).snd).snd.swapRequestsStorage =
        some (swapRequestOfRequest i1 t1 b) ∧
      tableLookup i2 (postSwapRequests i2 t2 b (postSwapRequests i1 t1 b s).snd).snd.swapRequestsStorage =
        some (swapRequestOfRequest i2 t2 b) ∧
      (postSwapRequests i2 t2 b (postSwapRequests i1 t1 b s).snd).snd.swapRequestsStorage.length =
        s.swapRequestsStorage.length + 2) ∧
    (validateRequestBody b feedbackRequiredFields = true →
     i1 ∉ tableKeys s.feedbackStorage → i2 ∉ tableKeys s.feedbackStorage →
      (postFeedback i1 t1 b s).fst.status = 201 ∧
      (postFeedback i2 t2 b (postFeedback i1 t1 b s).snd).fst.status = 201 ∧
      (postFeedback i1 t1 b s).fst.payload = some (feedbackOfRequest i1 t1 b) ∧
      (postFeedback i2 t2 b (postFeedback i1 t1 b s).snd).fst.payload =
        some (feedbackOfRequest i2 t2 b) ∧
      (feedbackOfRequest i1 t1 b).id ≠ (feedbackOfRequest i2 t2 b).id ∧
      feedbackOfRequest i1 t1 b ≠ feedbackOfRequest i2 t2 b ∧
      tableLookup i1 (postFeedback i2 t2 b (postFeedback i1 t1 b s).snd).snd.feedbackStorage =
        some (feedbackOfRequest i1 t1 b) ∧
      tableLookup i2 (postFeedback i2 t2 b (postFeedback i1 t1 b s).snd).snd.feedbackStorage =
        some (feedbackOfRequest i2 t2 b) ∧
      (postFeedback i2 t2 b (postFeedback i1 t1 b s).snd).snd.feedbackStorage.length =
        s.feedbackStorage.length + 2) := by
  refine ⟨?_, ?_, ?_, ?_⟩
  · intro hvalid h1 h2
    have hl1 : tableLookup i1 (tableInsert i2 (userOfRequest i2 t2 b)
        (tableInsert i1 (userOfRequest i1 t1 b) s.usersStorage)) =
        some (userOfRequest i1 t1 b) := by
      rw [tableLookup_tableInsert_ne i2 i1 _ _ (Ne.symm hne),
        tableLookup_tableInsert_self]
    have hl2 : tableLookup i2 (tableInsert i2 (userOfRequest i2 t2 b)
        (tableInsert i1 (userOfRequest i1 t1 b) s.usersStorage)) =
        some (userOfRequest i2 t2 b) :=
      tableLookup_tableInsert_self i2 _ _
    have hfresh2 : i2 ∉ tableKeys (tableInsert i1 (userOfRequest i1 t1 b)
        s.usersStorage) := by
      intro hmem
      rcases mem_tableKeys_tableInsert i2 i1 _ _ hmem with h | h
      · exact hne h.symm
      · exact h2 h
    have hlen : (tableInsert i2 (userOfRequest i2 t2 b)
        (tableInsert i1 (userOfRequest i1 t1 b) s.usersStorage)).length =
        s.usersStorage.length + 2 := by
      rw [length_tableInsert_fresh i2 _ _ hfresh2,
        length_tableInsert_fresh i1 _ _ h1]
    have hs1 := postUsers_valid i1 t1 b s hvalid
    have hs2 := postUsers_valid i2 t2 b (postUsers i1 t1 b s).snd hvalid
    rw [hs1] at hs2
    rw [hs1, hs2]
    exact ⟨rfl, rfl, rfl, rfl, hne, fun h => hne (congrArg User.id h),
      hl1, hl2, hlen⟩
  · intro hvalid h1 h2
    have hl1 : tableLookup i1 (tableInsert i2 (bookOfRequest i2 t2 b)
        (tableInsert i1 (bookOfRequest i1 t1 b) s.booksStorage)) =
        some (bookOfRequest i1 t1 b) := by
      rw [tableLookup_tableInsert_ne i2 i1 _ _ (Ne.symm hne),
        tableLookup_tableInsert_self]
    have hl2 : tableLookup i2 (tableInsert i2 (bookOfRequest i2 t2 b)
        (tableInsert i1 (bookOfRequest i1 t1 b) s.booksStorage)) =
        some (bookOfRequest i2 t2 b) :=
      tableLookup_tableInsert_self i2 _ _
    have hfresh2 : i2 ∉ tableKeys (tableInsert i1 (bookOfRequest i1 t1 b)
        s.booksStorage) := by
      intro hmem
      rcases mem_tableKeys_tableInsert i2 i1 _ _ hmem with h | h
      · exact hne h.symm
      · exact h2 h
    have hlen : (tableInsert i2 (bookOfRequest i2 t2 b)
        (tableInsert i1 (bookOfRequest i1 t1 b) s.booksStorage)).length =
        s.booksStorage.length + 2 := by
      rw [length_tableInsert_fresh i2 _ _ hfresh2,
        length_tableInsert_fresh i1 _ _ h1]
    have hs1 := postBooks_valid i1 t1 b s hvalid
    have hs2 := postBooks_valid i2 t2 b (postBooks i1 t1 b s).snd hvalid
    rw [hs1] at hs2
    rw [hs1, hs2]
    exact ⟨rfl, rfl, rfl, rfl, hne, fun h => hne (congrArg Book.id h),
      hl1, hl2, hlen⟩
  · intro hvalid h1 h2
    have hl1 : tableLookup i1 (tableInsert i2 (swapRequestOfRequest i2 t2 b)
        (tableInsert i1 (swapRequestOfRequest i1 t1 b) s.swapRequestsStorage)) =
        some (swapRequestOfRequest i1 t1 b) := by
      rw [tableLookup_tableInsert_ne i2 i1 _ _ (Ne.symm hne),
        tableLookup_tableInsert_self]
    have hl2 : tableLookup i2 (tableInsert i2 (swapRequestOfRequest i2 t2 b)
        (tableInsert i1 (swapRequestOfRequest i1 t1 b) s.swapRequestsStorage)) =
        some (swapRequestOfRequest i2 t2 b) :=
      tableLookup_tableInsert_self i2 _ _
    have hfresh2 : i2 ∉ tableKeys (tableInsert i1 (swapRequestOfRequest i1 t1 b)
        s.swapRequestsStorage) := by
      intro hmem
      rcases mem_tableKeys_tableInsert i2 i1 _ _ hmem with h | h
      · exact hne h.symm
      · exact h2 h
    have hlen : (tableInsert i2 (swapRequestOfRequest i2 t2 b)
        (tableInsert i1 (swapRequestOfRequest i1 t1 b) s.swapRequestsStorage)).length =
        s.swapRequestsStorage.length + 2 := by
      rw [length_tableInsert_fresh i2 _ _ hfresh2,
        length_tableInsert_fresh i1 _ _ h1]
    have hs1 := postSwapRequests_valid i1 t1 b s hvalid
    have hs2 := postSwapRequests_valid i2 t2 b (postSwapRequests i1 t1 b s).snd hvalid
    rw [hs1] at hs2
    rw [hs1, hs2]
    exact ⟨rfl, rfl, rfl, rfl, hne, fun h => hne (congrArg SwapRequest.id h),
      hl1, hl2, hlen⟩
  · intro hvalid h1 h2
    have hl1 : tableLookup i1 (tableInsert i2 (feedbackOfRequest i2 t2 b)
        (tableInsert i1 (feedbackOfRequest i1 t1 b) s.feedbackStorage)) =
        some (feedbackOfRequest i1 t1 b) := by
      rw [tableLookup_tableInsert_ne i2 i1 _ _ (Ne.symm hne),
        tableLookup_tableInsert_self]
    have hl2 : tableLookup i2 (tableInsert i2 (feedbackOfRequest i2 t2 b)
        (tableInsert i1 (feedbackOfRequest i1 t1 b) s.feedbackStorage)) =
        some (feedbackOfRequest i2 t2 b) :=
      tableLookup_tableInsert_self i2 _ _
    have hfresh2 : i2 ∉ tableKeys (tableInsert i1 (feedbackOfRequest i1 t1 b)
        s.feedbackStorage) := by
      intro hmem
      rcases mem_tableKeys_tableInsert i2 i1 _ _ hmem with h | h
      · exact hne h.symm
      · exact h2 h
    have hlen : (tableInsert i2 (feedbackOfRequest i2 t2 b)
        (tableInsert i1 (feedbackOfRequest i1 t1 b) s.feedbackStorage)).length =
        s.feedbackStorage.length + 2 := by
      rw [length_tableInsert_fresh i2 _ _ hfresh2,
        length_tableInsert_fresh i1 _ _ h1]
    have hs1 := postFeedback_valid i1 t1 b s hvalid
    have hs2 := postFeedback_valid i2 t2 b (postFeedback i1 t1 b s).snd hvalid
    rw [hs1] at hs2
    rw [hs1, hs2]
    exact ⟨rfl, rfl, rfl, rfl, hne, fun h => hne (congrArg Feedback.id h),
      hl1, hl2, hlen⟩

/-- C7 witness: a body valid for every route, posted twice unchanged with
fresh ids "a" then "b" from the empty state: on all four create endpoints
this yields two 201 responses, two distinct stored entities, and a table
of two. -/
theorem c7_identical_bodies_two_distinct_entities_witness :
    ((postUsers "a" 1 allFieldsBody emptyState).fst.status = 201 ∧
     (postUsers "b" 2 allFieldsBody (postUsers "a" 1 allFieldsBody emptyState).snd).fst.status = 201 ∧
     (postUsers "a" 1 allFieldsBody emptyState).fst.payload =
       some (userOfRequest "a" 1 allFieldsBody) ∧
     (postUsers "b" 2 allFieldsBody (postUsers "a" 1 allFieldsBody emptyState).snd).fst.payload =
       some (userOfRequest "b" 2 allFieldsBody) ∧
     (userOfRequest "a" 1 allFieldsBody).id ≠ (userOfRequest "b" 2 allFieldsBody).id ∧
     userOfRequest "a" 1 allFieldsBody ≠ userOfRequest "b" 2 allFieldsBody ∧
     tableLookup "a" (postUsers "b" 2 allFieldsBody (postUsers "a" 1 allFieldsBody emptyState).snd).snd.usersStorage =
       some (userOfRequest "a" 1 allFieldsBody) ∧
     tableLookup "b" (postUsers "b" 2 allFieldsBody (postUsers "a" 1 allFieldsBody emptyState).snd).snd.usersStorage =
       some (userOfRequest "b" 2 allFieldsBody) ∧
     (postUsers "b" 2 allFieldsBody (postUsers "a" 1 allFieldsBody emptyState).snd).snd.usersStorage.length =
       emptyState.usersStorage.length + 2) ∧
    ((postBooks "a" 1 allFieldsBody emptyState).fst.status = 201 ∧
     (postBooks "b" 2 allFieldsBody (postBooks "a" 1 allFieldsBody emptyState).snd).fst.status = 201 ∧
     (postBooks "a" 1 allFieldsBody emptyState).fst.payload =
       some (bookOfRequest "a" 1 allFieldsBody) ∧
     (postBooks "b" 2 allFieldsBody (postBooks "a" 1 allFieldsBody emptyState).snd).fst.payload =
       some (bookOfRequest "b" 2 allFieldsBody) ∧
     (bookOfRequest "a" 1 allFieldsBody).id ≠ (bookOfRequest "b" 2 allFieldsBody).id ∧
     bookOfRequest "a" 1 allFieldsBody ≠ bookOfRequest "b" 2 allFieldsBody ∧
     tableLookup "a" (postBooks "b" 2 allFieldsBody (postBooks "a" 1 allFieldsBody emptyState).snd).snd.booksStorage =
       some (bookOfRequest "a" 1 allFieldsBody) ∧
     tableLookup "b" (postBooks "b" 2 allFieldsBody (postBooks "a" 1 allFieldsBody emptyState).snd).snd.booksStorage =
       some (bookOfRequest "b" 2 allFieldsBody) ∧
     (postBooks "b" 2 allFieldsBody (postBooks "a" 1 allFieldsBody emptyState).snd).snd.booksStorage.length =
       emptyState.booksStorage.length + 2) ∧
    ((postSwapRequests "a" 1 allFieldsBody emptyState).fst.status = 201 ∧
     (postSwapRequests "b" 2 allFieldsBody (postSwapRequests "a" 1 allFieldsBody emptyState).snd).fst.status = 201 ∧
     (postSwapRequests "a" 1 allFieldsBody emptyState).fst.payload =
       some (swapRequestOfRequest "a" 1 allFieldsBody) ∧
     (postSwapRequests "b" 2 allFieldsBody (postSwapRequests "a" 1 allFieldsBody emptyState).snd).fst.payload =
       some (swapRequestOfRequest "b" 2 allFieldsBody) ∧
     (swapRequestOfRequest "a" 1 allFieldsBody).id ≠ (swapRequestOfRequest "b" 2 allFieldsBody).id ∧
     swapRequestOfRequest "a" 1 allFieldsBody ≠ swapRequestOfRequest "b" 2 allFieldsBody ∧
     tableLookup "a" (postSwapRequests "b" 2 allFieldsBody (postSwapRequests "a" 1 allFieldsBody emptyState).snd).snd.swapRequestsStorage =
       some (swapRequestOfRequest "a" 1 allFieldsBody) ∧
     tableLookup "b" (postSwapRequests "b" 2 allFieldsBody (postSwapRequests "a" 1 allFieldsBody emptyState).snd).snd.swapRequestsStorage =
       some (swapRequestOfRequest "b" 2 allFieldsBody) ∧
     (postSwapRequests "b" 2 allFieldsBody (postSwapRequests "a" 1 allFieldsBody emptyState).snd).snd.swapRequestsStorage.length =
       emptyState.swapRequestsStorage.length + 2) ∧
    ((postFeedback "a" 1 allFieldsBody emptyState).fst.status = 201 ∧
     (postFeedback "b" 2 allFieldsBody (postFeedback "a" 1 allFieldsBody emptyState).snd).fst.status = 201 ∧
     (postFeedback "a" 1 allFieldsBody emptyState).fst.payload =
       some (feedbackOfRequest "a" 1 allFieldsBody) ∧
     (postFeedback "b" 2 allFieldsBody (postFeedback "a" 1 allFieldsBody emptyState).snd).fst.payload =
       some (feedbackOfRequest "b" 2 allFieldsBody) ∧
     (feedbackOfRequest "a" 1 allFieldsBody).id ≠ (feedbackOfRequest "b" 2 allFieldsBody).id ∧
     feedbackOfRequest "a" 1 allFieldsBody ≠ feedbackOfRequest "b" 2 allFieldsBody ∧
     tableLookup "a" (postFeedback "b" 2 allFieldsBody (postFeedback "a" 1 allFieldsBody emptyState).snd).snd.feedbackStorage =
       some (feedbackOfRequest "a" 1 allFieldsBody) ∧
     tableLookup "b" (postFeedback "b" 2 allFieldsBody (postFeedback "a" 1 allFieldsBody emptyState).snd).snd.feedbackStorage =
       some (feedbackOfRequest "b" 2 allFieldsBody) ∧
     (postFeedback "b" 2 allFieldsBody (postFeedback "a" 1 allFieldsBody emptyState).snd).snd.feedbackStorage.length =
       emptyState.feedbackStorage.length + 2) := by
  have h := c7_identical_bodies_two_distinct_entities emptyState "a" "b" 1 2
    allFieldsBody (by decide)
  exact ⟨h.1 (by decide) (by decide) (by decide),
    h.2.1 (by decide) (by decide) (by decide),
    h.2.2.1 (by decide) (by decide) (by decide),
    h.2.2.2 (by decide) (by decide) (by decide)⟩
